import Mathlib

/-!
Verification of the Data-Dashboard application (src/dataDashboard/src/App.jsx).

The component holds four pieces of UI state (restaurants, userLocation,
isLoading, error) and two operations:

* `getUserLocation` — asks the browser geolocation capability for coordinates;
  on success it stores them, on failure it stores a fixed error message.
* `fetchRestaurants` — guarded by the API key, issues one HTTP request and
  classifies the outcome (success body with `restaurants` array, unexpected
  format, HTTP failure with optional `message`, transport/parse exception).

`fetchRestaurants` is embedded as a list of state-update events
(`fetchTrace`), so that both the final state (`runFetch`, a fold of the
events) and the ordering of the individual `setState` calls and the network
call are visible to theorems.  JavaScript truthiness (`!API_KEY`,
`data.restaurants && Array.isArray(...)`, `data.message || fallback`) is
modelled explicitly.  Latitude/longitude values are opaque to every claim, so
they are carried as integers.
-/

namespace DataDashboard

/-- A latitude/longitude pair, as produced by the geolocation success
callback.  No claim inspects the numeric values, so they are modelled as
integers. -/
structure Coordinates where
  latitude : Int
  longitude : Int
deriving DecidableEq, Repr

/-- Street address of a restaurant record, as rendered by the card
(`restaurant.address.street_addr`, `.city`, `.state`, `.zipcode`). -/
structure Address where
  street_addr : String
  city : String
  state : String
  zipcode : String
deriving DecidableEq, Repr

/-- A restaurant record as the card renders it: name, address and the
(possibly empty) `food_photos` list. -/
structure Restaurant where
  name : String
  address : Address
  food_photos : List String
deriving DecidableEq, Repr

/-- The component's state: the four `useState` hooks of `App`. -/
structure UIState where
  restaurants : List Restaurant
  userLocation : Option Coordinates
  isLoading : Bool
  error : Option String
deriving DecidableEq, Repr

/-- The mount state: `useState([])`, `useState(null)`, `useState(false)`,
`useState(null)`. -/
def initState : UIState :=
  { restaurants := [], userLocation := none, isLoading := false, error := none }

/-- A decoded JSON value, restricted to the observations the code makes of
`data.restaurants`: being an array (`Array.isArray`), JavaScript truthiness,
and the array contents. -/
inductive JVal where
  | jarr (xs : List Restaurant)
  | jstr (s : String)
  | jbool (b : Bool)
  | jnull
deriving DecidableEq, Repr

/-- JavaScript truthiness of a decoded value: arrays are truthy, `""`,
`false` and `null` are falsy. -/
def JVal.truthy : JVal → Bool
  | .jarr _ => true
  | .jstr s => !(s == "")
  | .jbool b => b
  | .jnull => false

/-- `Array.isArray` on a decoded value. -/
def JVal.isArray : JVal → Bool
  | .jarr _ => true
  | _ => false

/-- The list carried by an array value (dummy `[]` otherwise; only read
under `isArray`). -/
def JVal.getArr : JVal → List Restaurant
  | .jarr xs => xs
  | _ => []

/-- The decoded response body, restricted to the two fields the code reads:
`data.restaurants` and `data.message`.  `none` models an absent
(`undefined`) field. -/
structure ApiBody where
  restaurants : Option JVal
  message : Option String
deriving DecidableEq, Repr

/-- The condition `data.restaurants && Array.isArray(data.restaurants)`:
an absent field is falsy, a present field must be truthy and an array. -/
def ApiBody.hasRestaurantArray (b : ApiBody) : Bool :=
  match b.restaurants with
  | some v => v.truthy && v.isArray
  | none => false

/-- The restaurants array of the body (dummy `[]` when absent or not an
array). -/
def ApiBody.restaurantArr (b : ApiBody) : List Restaurant :=
  (b.restaurants.getD JVal.jnull).getArr

/-- Outcome of the awaited `fetch` + `response.json()` pair: either a decoded
response with its `response.ok` flag, or a thrown transport/parse
exception. -/
inductive FetchOutcome where
  | response (ok : Bool) (body : ApiBody)
  | exception
deriving DecidableEq, Repr

/-- Outcome of one geolocation attempt: success callback with coordinates,
error callback (denied/errored), or the capability being absent from
`navigator`. -/
inductive GeoOutcome where
  | success (c : Coordinates)
  | failure
  | unsupported
deriving DecidableEq, Repr

/-- "API key is missing. Please check your environment variables." -/
def apiKeyMissingMsg : String :=
  "API key is missing. Please check your environment variables."

/-- "Unexpected data format received from the API." -/
def unexpectedFormatMsg : String :=
  "Unexpected data format received from the API."

/-- "Failed to fetch restaurants. Please try again." -/
def failedFetchMsg : String :=
  "Failed to fetch restaurants. Please try again."

/-- "An error occurred while fetching restaurants. Please try again." -/
def fetchExceptionMsg : String :=
  "An error occurred while fetching restaurants. Please try again."

/-- "Failed to get your location. Please try again." -/
def geoDeniedMsg : String :=
  "Failed to get your location. Please try again."

/-- "Geolocation is not supported by your browser." -/
def geoUnsupportedMsg : String :=
  "Geolocation is not supported by your browser."

/-- JavaScript truthiness of the credential `API_KEY`
(`import.meta.env.VITE_APP_API_KEY`): `undefined` and `""` are falsy, so
`!API_KEY` takes the guard branch exactly when this is `false`. -/
def credentialTruthy : Option String → Bool
  | none => false
  | some s => !(s == "")

/-- `data.message || "Failed to fetch restaurants. Please try again."`:
an absent or falsy (empty) message yields the fallback string. -/
def messageOrFallback : Option String → String
  | some m => if m == "" then failedFetchMsg else m
  | none => failedFetchMsg

/-- One observable effect of `fetchRestaurants`: a `setState` call or the
issuing of the network request. -/
inductive Ev where
  | setRestaurants (xs : List Restaurant)
  | setLoading (b : Bool)
  | setError (e : Option String)
  | netCall
deriving DecidableEq, Repr

/-- Effect of one event on the component state (`netCall` does not change
state). -/
def applyEv (s : UIState) : Ev → UIState
  | .setRestaurants xs => { s with restaurants := xs }
  | .setLoading b => { s with isLoading := b }
  | .setError e => { s with error := e }
  | .netCall => s

/-- The branch of `fetchRestaurants` on the awaited outcome: `response.ok`
with a truthy `restaurants` array replaces the list; `response.ok` without
one sets the unexpected-format error; a failure status sets
`data.message || fallback`; a thrown exception sets the exception
message. -/
def outcomeEvents (o : FetchOutcome) : List Ev :=
  match o with
  | .response ok body =>
    if ok then
      if body.hasRestaurantArray then
        [Ev.setRestaurants body.restaurantArr]
      else
        [Ev.setError (some unexpectedFormatMsg)]
    else
      [Ev.setError (some (messageOrFallback body.message))]
  | .exception => [Ev.setError (some fetchExceptionMsg)]

/-- The sequence of effects of one `fetchRestaurants()` call, in program
order:

* `!API_KEY` → `setError(apiKeyMissingMsg)` and return (nothing else);
* otherwise `setIsLoading(true)`, `setError(null)`, the network call, then
  the branch on the outcome, then the `finally` block's
  `setIsLoading(false)`. -/
def fetchTrace (key : Option String) (o : FetchOutcome) : List Ev :=
  if credentialTruthy key then
    [Ev.setLoading true, Ev.setError none, Ev.netCall] ++ outcomeEvents o ++
      [Ev.setLoading false]
  else
    [Ev.setError (some apiKeyMissingMsg)]

/-- The state after one `fetchRestaurants()` call resolves: the fold of its
effect trace. -/
def runFetch (key : Option String) (o : FetchOutcome) (s : UIState) : UIState :=
  (fetchTrace key o).foldl applyEv s

/-- `getUserLocation()`: the success callback stores the coordinates; the
error callback and the unsupported branch store their fixed messages.
Note the success callback does not touch `error`. -/
def getUserLocation (g : GeoOutcome) (s : UIState) : UIState :=
  match g with
  | .success c => { s with userLocation := some c }
  | .failure => { s with error := some geoDeniedMsg }
  | .unsupported => { s with error := some geoUnsupportedMsg }

/-- Visibility of the "Get My Location" button: `!userLocation && !error`. -/
def buttonVisible (s : UIState) : Bool :=
  s.userLocation.isNone && s.error.isNone

/-- The four view-describing conditions, in the spec's order: isLoading
true, error present, restaurants populated, restaurants empty with no
error. -/
def viewConds (s : UIState) : List Bool :=
  [s.isLoading, s.error.isSome, !s.restaurants.isEmpty,
    s.restaurants.isEmpty && s.error.isNone]

/-- Exactly one of the four view conditions holds in state `s`. -/
abbrev exactlyOneCond (s : UIState) : Prop :=
  (viewConds s).count true = 1

/-- States reachable from mount by whole location/fetch operations, with the
source's gating: `getUserLocation` runs at mount and from the retry button,
both only available while no location and no error are held, and every
successful acquisition triggers exactly one fetch (the `useEffect` on
`userLocation`). -/
inductive Reachable (key : Option String) : UIState → Prop where
  | init : Reachable key initState
  | geoFailure (s : UIState) (h : Reachable key s)
      (hl : s.userLocation = none) (he : s.error = none) :
      Reachable key (getUserLocation GeoOutcome.failure s)
  | geoUnsupported (s : UIState) (h : Reachable key s)
      (hl : s.userLocation = none) (he : s.error = none) :
      Reachable key (getUserLocation GeoOutcome.unsupported s)
  | geoSuccessFetch (c : Coordinates) (o : FetchOutcome) (s : UIState)
      (h : Reachable key s)
      (hl : s.userLocation = none) (he : s.error = none) :
      Reachable key (runFetch key o (getUserLocation (GeoOutcome.success c) s))

/-- States visible to the renderer, including those in the middle of an
in-flight fetch: every prefix of the fetch's effect trace yields a rendered
state (the component re-renders at each `setState` while the request is
awaited). -/
inductive ReachableMid (key : Option String) : UIState → Prop where
  | settled (s : UIState) (h : Reachable key s) : ReachableMid key s
  | midFetch (c : Coordinates) (o : FetchOutcome) (s : UIState)
      (pre post : List Ev) (h : Reachable key s)
      (hl : s.userLocation = none) (he : s.error = none)
      (hsplit : fetchTrace key o = pre ++ post) :
      ReachableMid key (pre.foldl applyEv (getUserLocation (GeoOutcome.success c) s))

/-- No event of a trace changes `userLocation` (only `fetchRestaurants`
events are folded, and none of them is `setUserLocation`). -/
theorem foldl_applyEv_userLocation (evs : List Ev) (s : UIState) :
    (evs.foldl applyEv s).userLocation = s.userLocation := by
  induction evs generalizing s with
  | nil => rfl
  | cons e t ih => cases e <;> simp [List.foldl, applyEv, ih]

/-- A fetch never changes the stored location. -/
theorem runFetch_userLocation (key : Option String) (o : FetchOutcome) (s : UIState) :
    (runFetch key o s).userLocation = s.userLocation :=
  foldl_applyEv_userLocation _ _

/-- The only reachable quiescent state with no location and no error is the
mount state. -/
theorem reachable_clean_eq_init (key : Option String) (s : UIState)
    (h : Reachable key s) (hl : s.userLocation = none) (he : s.error = none) :
    s = initState := by
  cases h with
  | init => rfl
  | geoFailure s' h' hl' he' => simp [getUserLocation] at he
  | geoUnsupported s' h' hl' he' => simp [getUserLocation] at he
  | geoSuccessFetch c o s' h' hl' he' =>
    rw [runFetch_userLocation] at hl
    simp [getUserLocation] at hl

/-- C4 (amended): at every quiescent reachable state — between whole
location/fetch operations, no fetch in flight — exactly one of the four
view conditions holds. -/
theorem C4_quiescent_exactly_one (key : Option String) (s : UIState)
    (h : Reachable key s) : exactlyOneCond s := by
  induction h with
  | init => decide
  | geoFailure s' h' hl' he' ih =>
    have hs := reachable_clean_eq_init key s' h' hl' he'
    subst hs
    decide
  | geoUnsupported s' h' hl' he' ih =>
    have hs := reachable_clean_eq_init key s' h' hl' he'
    subst hs
    decide
  | geoSuccessFetch c o s' h' hl' he' ih =>
    have hs := reachable_clean_eq_init key s' h' hl' he'
    subst hs
    cases hk : credentialTruthy key with
    | false =>
      simp [runFetch, fetchTrace, outcomeEvents, hk, applyEv, getUserLocation, initState,
        exactlyOneCond, viewConds, apiKeyMissingMsg]
    | true =>
      cases o with
      | exception =>
        simp [runFetch, fetchTrace, outcomeEvents, hk, applyEv, getUserLocation, initState,
          exactlyOneCond, viewConds, fetchExceptionMsg]
      | response ok body =>
        cases ok with
        | false =>
          simp [runFetch, fetchTrace, outcomeEvents, hk, applyEv, getUserLocation, initState,
            exactlyOneCond, viewConds]
        | true =>
          cases hb : body.hasRestaurantArray with
          | false =>
            simp [runFetch, fetchTrace, outcomeEvents, hk, hb, applyEv, getUserLocation,
              initState, exactlyOneCond, viewConds, unexpectedFormatMsg]
          | true =>
            cases hxs : body.restaurantArr with
            | nil =>
              simp [runFetch, fetchTrace, outcomeEvents, hk, hb, hxs, applyEv,
                getUserLocation, initState, exactlyOneCond, viewConds]
            | cons x t =>
              simp [runFetch, fetchTrace, outcomeEvents, hk, hb, hxs, applyEv,
                getUserLocation, initState, exactlyOneCond, viewConds]

/-- Witness for C4 (amended): the mount state is reachable and satisfies
exactly one condition. -/
theorem C4_quiescent_exactly_one_witness : exactlyOneCond initState :=
  C4_quiescent_exactly_one (some "k") initState Reachable.init

/-- A concrete pair of coordinates for counterexamples. -/
def coordsZero : Coordinates := { latitude := 0, longitude := 0 }

/-- The state in the middle of the first fetch, after `setIsLoading(true)`,
`setError(null)` and the network call, while the response is awaited. -/
def midLoadingState : UIState :=
  { restaurants := [], userLocation := some coordsZero,
    isLoading := true, error := none }

/-- C4 is false as stated: the in-flight loading state is reachable by the
location/fetch operations and satisfies two of the four conditions at once
(isLoading is true, and restaurants is empty with no error), so the four
conditions are not mutually exclusive over all reachable states. -/
theorem C4_counterexample :
    ReachableMid (some "k") midLoadingState ∧
      midLoadingState.isLoading = true ∧
      (midLoadingState.restaurants.isEmpty && midLoadingState.error.isNone) = true ∧
      ¬ exactlyOneCond midLoadingState := by
  refine ⟨?_, by decide, by decide, by decide⟩
  have h := @ReachableMid.midFetch (some "k") coordsZero FetchOutcome.exception initState
    [Ev.setLoading true, Ev.setError none, Ev.netCall]
    [Ev.setError (some fetchExceptionMsg), Ev.setLoading false]
    Reachable.init rfl rfl (by decide)
  exact h

/-- A concrete restaurant record for witnesses. -/
def sampleRestaurant : Restaurant :=
  { name := "A",
    address := { street_addr := "1 Main St", city := "Springfield",
                 state := "IL", zipcode := "62704" },
    food_photos := [] }

/-- A success body whose `restaurants` field holds a one-element array. -/
def goodBody : ApiBody :=
  { restaurants := some (JVal.jarr [sampleRestaurant]), message := none }

/-- A body with neither a `restaurants` nor a `message` field (the spec's
example `\x7b"foo":[]\x7d` is observationally this body: the code never reads
`foo`). -/
def formatlessBody : ApiBody :=
  { restaurants := none, message := none }

/-- A failure body whose `message` field is "rate limited". -/
def rateLimitedBody : ApiBody :=
  { restaurants := none, message := some "rate limited" }

/-- A failure body whose `message` field is present but the empty string. -/
def emptyMessageBody : ApiBody :=
  { restaurants := none, message := some "" }

/-- C1: when the credential is truthy, the response has a success status and
its decoded body holds an array-valued `restaurants` field, the state's
restaurants list becomes exactly that array (same order) and no error is set
on that path. -/
theorem C1_success_replaces_restaurants (key : Option String) (body : ApiBody)
    (xs : List Restaurant) (s : UIState)
    (hk : credentialTruthy key = true)
    (hr : body.restaurants = some (JVal.jarr xs)) :
    (runFetch key (FetchOutcome.response true body) s).restaurants = xs ∧
      (runFetch key (FetchOutcome.response true body) s).error = none := by
  have hb : body.hasRestaurantArray = true := by
    simp [ApiBody.hasRestaurantArray, hr, JVal.truthy, JVal.isArray]
  have ha : body.restaurantArr = xs := by
    simp [ApiBody.restaurantArr, hr, JVal.getArr]
  constructor <;>
    simp [runFetch, fetchTrace, outcomeEvents, hk, hb, ha, applyEv]

/-- Witness for C1 at a concrete key, body and start state. -/
theorem C1_success_replaces_restaurants_witness :
    credentialTruthy (some "k") = true ∧
      (runFetch (some "k") (FetchOutcome.response true goodBody)
          initState).restaurants = [sampleRestaurant] ∧
      (runFetch (some "k") (FetchOutcome.response true goodBody)
          initState).error = none :=
  ⟨by decide,
    C1_success_replaces_restaurants (some "k") goodBody [sampleRestaurant]
      initState (by decide) rfl⟩

/-- C2: when the credential is absent or empty, the call sets exactly the
missing-key error, leaves isLoading and restaurants untouched, and its trace
contains neither the network call nor any `setIsLoading(true)`. -/
theorem C2_missing_key_short_circuit (key : Option String) (o : FetchOutcome)
    (s : UIState) (hk : credentialTruthy key = false) :
    (runFetch key o s).error = some apiKeyMissingMsg ∧
      (runFetch key o s).isLoading = s.isLoading ∧
      (runFetch key o s).restaurants = s.restaurants ∧
      Ev.netCall ∉ fetchTrace key o ∧
      Ev.setLoading true ∉ fetchTrace key o := by
  refine ⟨?_, ?_, ?_, ?_, ?_⟩ <;>
    simp [runFetch, fetchTrace, hk, applyEv]

/-- Witness for C2 with an absent credential. -/
theorem C2_missing_key_short_circuit_witness :
    credentialTruthy none = false ∧
      (runFetch none FetchOutcome.exception initState).error
        = some apiKeyMissingMsg ∧
      (runFetch none FetchOutcome.exception initState).isLoading = false ∧
      (runFetch none FetchOutcome.exception initState).restaurants = [] ∧
      Ev.netCall ∉ fetchTrace none FetchOutcome.exception ∧
      Ev.setLoading true ∉ fetchTrace none FetchOutcome.exception :=
  ⟨by decide,
    C2_missing_key_short_circuit none FetchOutcome.exception initState (by decide)⟩

/-- C3: past the credential guard, the trace starts with `setIsLoading(true)`
then `setError(null)` and only then the network call; it ends with the
`finally` block's `setIsLoading(false)` on every outcome, and the resolved
state always has isLoading false. -/
theorem C3_loading_lifecycle (key : Option String) (o : FetchOutcome)
    (s : UIState) (hk : credentialTruthy key = true) :
    (∃ rest, fetchTrace key o =
        Ev.setLoading true :: Ev.setError none :: Ev.netCall :: rest) ∧
      (∃ pre, fetchTrace key o = pre ++ [Ev.setLoading false]) ∧
      (runFetch key o s).isLoading = false := by
  refine ⟨⟨outcomeEvents o ++ [Ev.setLoading false], ?_⟩,
    ⟨[Ev.setLoading true, Ev.setError none, Ev.netCall] ++ outcomeEvents o, ?_⟩,
    ?_⟩
  · simp [fetchTrace, hk]
  · simp [fetchTrace, hk]
  · simp [runFetch, fetchTrace, hk, List.foldl_append, applyEv]

/-- Witness for C3 at a concrete key and outcome. -/
theorem C3_loading_lifecycle_witness :
    credentialTruthy (some "k") = true ∧
      ((∃ rest, fetchTrace (some "k") FetchOutcome.exception =
          Ev.setLoading true :: Ev.setError none :: Ev.netCall :: rest) ∧
        (∃ pre, fetchTrace (some "k") FetchOutcome.exception =
          pre ++ [Ev.setLoading false]) ∧
        (runFetch (some "k") FetchOutcome.exception initState).isLoading = false) :=
  ⟨by decide,
    C3_loading_lifecycle (some "k") FetchOutcome.exception initState (by decide)⟩

/-- C5 (amended): a successful acquisition stores the coordinates and changes
nothing else — in particular it does not clear an existing error; error
clearing happens only in the downstream fetch. -/
theorem C5_success_stores_location_only (c : Coordinates) (s : UIState) :
    (getUserLocation (GeoOutcome.success c) s).userLocation = some c ∧
      (getUserLocation (GeoOutcome.success c) s).error = s.error ∧
      (getUserLocation (GeoOutcome.success c) s).restaurants = s.restaurants ∧
      (getUserLocation (GeoOutcome.success c) s).isLoading = s.isLoading :=
  ⟨rfl, rfl, rfl, rfl⟩

/-- A state that already carries an error when geolocation succeeds. -/
def erroredState : UIState :=
  { restaurants := [], userLocation := none, isLoading := false,
    error := some geoDeniedMsg }

/-- C5 is false as stated: the success callback of `getUserLocation` stores
the coordinates but does not clear the pre-existing error. -/
theorem C5_counterexample :
    (getUserLocation (GeoOutcome.success coordsZero) erroredState).userLocation
        = some coordsZero ∧
      (getUserLocation (GeoOutcome.success coordsZero) erroredState).error
        = some geoDeniedMsg ∧
      some geoDeniedMsg ≠ (none : Option String) :=
  ⟨rfl, rfl, by decide⟩

/-- C6: when the credential is truthy and the response has a success status
but the body lacks a (truthy) array-valued `restaurants` field, exactly the
unexpected-format error is set and restaurants is unchanged. -/
theorem C6_unexpected_format (key : Option String) (body : ApiBody)
    (s : UIState) (hk : credentialTruthy key = true)
    (hb : body.hasRestaurantArray = false) :
    (runFetch key (FetchOutcome.response true body) s).error
        = some unexpectedFormatMsg ∧
      (runFetch key (FetchOutcome.response true body) s).restaurants
        = s.restaurants := by
  constructor <;>
    simp [runFetch, fetchTrace, outcomeEvents, hk, hb, applyEv]

/-- Witness for C6 at the spec's missing-key body. -/
theorem C6_unexpected_format_witness :
    credentialTruthy (some "k") = true ∧
      formatlessBody.hasRestaurantArray = false ∧
      (runFetch (some "k") (FetchOutcome.response true formatlessBody)
          initState).error = some unexpectedFormatMsg ∧
      (runFetch (some "k") (FetchOutcome.response true formatlessBody)
          initState).restaurants = [] :=
  ⟨by decide, by decide,
    C6_unexpected_format (some "k") formatlessBody initState (by decide) (by decide)⟩

/-- C7 (amended): on an HTTP failure status, the error is the `message`
field verbatim when it is present and non-empty; when the field is absent or
empty (falsy, so `data.message || fallback` falls through), it is the fixed
fallback string. -/
theorem C7_failure_status_message (key : Option String) (body : ApiBody)
    (s : UIState) (hk : credentialTruthy key = true) :
    (∀ m, body.message = some m → m ≠ "" →
        (runFetch key (FetchOutcome.response false body) s).error = some m) ∧
      (body.message = none →
        (runFetch key (FetchOutcome.response false body) s).error
          = some failedFetchMsg) ∧
      (body.message = some "" →
        (runFetch key (FetchOutcome.response false body) s).error
          = some failedFetchMsg) := by
  refine ⟨?_, ?_, ?_⟩
  · intro m hm hne
    simp [runFetch, fetchTrace, outcomeEvents, hk, applyEv,
      messageOrFallback, hm, hne]
  · intro hm
    simp [runFetch, fetchTrace, outcomeEvents, hk, applyEv,
      messageOrFallback, hm]
  · intro hm
    simp [runFetch, fetchTrace, outcomeEvents, hk, applyEv,
      messageOrFallback, hm]

/-- Witness for C7 (amended): a present non-empty message is surfaced
verbatim. -/
theorem C7_failure_status_message_witness :
    credentialTruthy (some "k") = true ∧
      (runFetch (some "k") (FetchOutcome.response false rateLimitedBody)
          initState).error = some "rate limited" :=
  ⟨by decide,
    (C7_failure_status_message (some "k") rateLimitedBody initState
        (by decide)).1 "rate limited" rfl (by decide)⟩

/-- C7 is false as stated: with a present but empty `message` field the code
surfaces the fallback string, not the field's value verbatim. -/
theorem C7_counterexample :
    emptyMessageBody.message = some "" ∧
      (runFetch (some "k") (FetchOutcome.response false emptyMessageBody)
          initState).error = some failedFetchMsg ∧
      failedFetchMsg ≠ "" :=
  ⟨rfl, by decide, by decide⟩

/-- C8: an attempt with the capability absent sets exactly the unsupported
message, one with the capability present but denied/errored sets exactly the
denial message; both leave restaurants empty (unchanged) and the stored
location untouched. -/
theorem C8_geo_failure_messages (s : UIState) (hr : s.restaurants = []) :
    (getUserLocation GeoOutcome.unsupported s).error = some geoUnsupportedMsg ∧
      (getUserLocation GeoOutcome.failure s).error = some geoDeniedMsg ∧
      (getUserLocation GeoOutcome.unsupported s).restaurants = [] ∧
      (getUserLocation GeoOutcome.failure s).restaurants = [] ∧
      (getUserLocation GeoOutcome.unsupported s).userLocation = s.userLocation ∧
      (getUserLocation GeoOutcome.failure s).userLocation = s.userLocation :=
  ⟨rfl, rfl, hr, hr, rfl, rfl⟩

/-- Witness for C8 at the mount state. -/
theorem C8_geo_failure_messages_witness :
    initState.restaurants = [] ∧
      (getUserLocation GeoOutcome.unsupported initState).error
        = some geoUnsupportedMsg ∧
      (getUserLocation GeoOutcome.failure initState).error = some geoDeniedMsg ∧
      (getUserLocation GeoOutcome.unsupported initState).restaurants = [] ∧
      (getUserLocation GeoOutcome.failure initState).restaurants = [] ∧
      (getUserLocation GeoOutcome.unsupported initState).userLocation = none ∧
      (getUserLocation GeoOutcome.failure initState).userLocation = none :=
  ⟨rfl, C8_geo_failure_messages initState rfl⟩

/-- C9: the "Get My Location" control is rendered exactly when no
coordinates are held and no error is set (`!userLocation && !error`). -/
theorem C9_button_visibility (s : UIState) :
    buttonVisible s = true ↔ s.userLocation = none ∧ s.error = none := by
  cases s with
  | mk r l il e => cases l <;> cases e <;> simp [buttonVisible]

/-- C10: a fetch that terminates through the HTTP-failure branch or the
exception branch leaves both the restaurants list and the stored location
exactly as they were before the attempt. -/
theorem C10_failure_paths_frame (key : Option String) (body : ApiBody)
    (s : UIState) (hk : credentialTruthy key = true) :
    (runFetch key (FetchOutcome.response false body) s).restaurants
        = s.restaurants ∧
      (runFetch key (FetchOutcome.response false body) s).userLocation
        = s.userLocation ∧
      (runFetch key FetchOutcome.exception s).restaurants = s.restaurants ∧
      (runFetch key FetchOutcome.exception s).userLocation = s.userLocation := by
  refine ⟨?_, runFetch_userLocation _ _ _, ?_, runFetch_userLocation _ _ _⟩ <;>
    simp [runFetch, fetchTrace, outcomeEvents, hk, applyEv]

/-- Witness for C10 at a concrete key, body and a state already holding a
restaurant and a location. -/
theorem C10_failure_paths_frame_witness :
    credentialTruthy (some "k") = true ∧
      ((runFetch (some "k") (FetchOutcome.response false rateLimitedBody)
          { restaurants := [sampleRestaurant], userLocation := some coordsZero,
            isLoading := false, error := none }).restaurants
        = [sampleRestaurant] ∧
      (runFetch (some "k") (FetchOutcome.response false rateLimitedBody)
          { restaurants := [sampleRestaurant], userLocation := some coordsZero,
            isLoading := false, error := none }).userLocation
        = some coordsZero ∧
      (runFetch (some "k") FetchOutcome.exception
          { restaurants := [sampleRestaurant], userLocation := some coordsZero,
            isLoading := false, error := none }).restaurants
        = [sampleRestaurant] ∧
      (runFetch (some "k") FetchOutcome.exception
          { restaurants := [sampleRestaurant], userLocation := some coordsZero,
            isLoading := false, error := none }).userLocation
        = some coordsZero) :=
  ⟨by decide,
    C10_failure_paths_frame (some "k") rateLimitedBody
      { restaurants := [sampleRestaurant], userLocation := some coordsZero,
        isLoading := false, error := none } (by decide)⟩

end DataDashboard
